import Mathlib

/-!
Verification of `google/cloud/bigtable/examples/bigtable_hello_instance_admin.cc`.

The program is a linear sequence of calls into an external Bigtable
instance-administration client.  We embed it shallowly: the responses the
external client would return during one run are collected in an `Env`, and
`main` becomes a pure function `run` from the argument vector and the
environment to an exit code, a trace of the admin operations invoked, and the
lines printed to stdout/stderr.  Dereferencing a `StatusOr`-style result is
modelled by `svalue`, which yields `none` on a failed result, so `run` lives
in `Option`: a run that ever read the value of a failed result would be
`none`.
-/

namespace HelloInstanceAdmin

/-- Modelled from the spec: a `StatusOr`-style result carries either a value
or a failure status; only the status message is observed by this program. -/
abbrev StatusOr (α : Type) := Except String α

/-- The `!result` check of the source: true when the result holds a failure. -/
def failed {α : Type} : StatusOr α → Bool
  | Except.error _ => true
  | Except.ok _ => false

/-- `result.status().message()` as used at the throw sites. -/
def statusMessage {α : Type} : StatusOr α → String
  | Except.error m => m
  | Except.ok _ => ""

/-- Dereference (`operator*` / `operator->`) of a `StatusOr`-style result:
defined only on success, `none` models reading the value of a failure. -/
def svalue {α : Type} : StatusOr α → Option α
  | Except.ok v => some v
  | Except.error _ => none

/-- Modelled from the spec: `google::cloud::Status`, carrying success and a
message, as returned by `DeleteInstance`. -/
structure Status where
  ok : Bool
  message : String
deriving DecidableEq

/-- Modelled from the spec: `google::bigtable::admin::v2::Instance`; the
program observes its `name()` and its `DebugString()`. -/
structure Inst where
  name : String
  debugString : String
deriving DecidableEq

/-- Modelled from the spec: a cluster; the program observes its `name()`. -/
structure Cluster where
  name : String
deriving DecidableEq

/-- Modelled from the spec: `cbt::InstanceList`, the payload of
`ListInstances`: the instances plus the failed locations. -/
structure InstanceList where
  instances : List Inst
  failed_locations : List String
deriving DecidableEq

/-- Modelled from the spec: `cbt::ClusterList`, the payload of
`ListClusters`: the clusters plus the failed locations. -/
structure ClusterList where
  clusters : List Cluster
  failed_locations : List String
deriving DecidableEq

/-- Modelled from the spec: the storage type of `cbt::ClusterConfig`. -/
inductive StorageType where
  | HDD
  | SSD
deriving DecidableEq

/-- Modelled from the spec: `cbt::ClusterConfig(zone, num_nodes, storage)`. -/
structure ClusterConfig where
  zone : String
  num_nodes : Nat
  storage : StorageType
deriving DecidableEq

/-- Modelled from the spec: the instance type of `cbt::InstanceConfig`. -/
inductive InstanceType where
  | PRODUCTION
  | DEVELOPMENT
deriving DecidableEq

/-- Modelled from the spec: `cbt::InstanceConfig(instance_id, display_name,
clusters)` together with `set_type`. -/
structure InstanceConfig where
  instance_id : String
  display_name : String
  clusters : List (String × ClusterConfig)
  type : InstanceType
deriving DecidableEq

/-- The responses the external admin client returns during one run, one per
call site of the program: the two `ListInstances` calls, the `CreateInstance`
future, `GetInstance`, `ListClusters` and `DeleteInstance`, plus the value of
`instance_admin.project_name()`. -/
structure Env where
  projectName : String
  listInstances1 : StatusOr InstanceList
  createRes : StatusOr Inst
  listInstances2 : StatusOr InstanceList
  getRes : StatusOr Inst
  clustersRes : StatusOr ClusterList
  deleteRes : Status

/-- One admin operation invoked by the program.  `listInstances` carries the
call site (1 = the existence check, 2 = the listing); `futureGet` is the
blocking `creation_done.get()` wait. -/
inductive Event where
  | connect (projectId : String)
  | listInstances (site : Nat)
  | createInstance (config : InstanceConfig)
  | futureGet
  | getInstance (id : String)
  | listClusters (id : String)
  | deleteInstance (id : String)
deriving DecidableEq

/-- Output channel: stdout or stderr. -/
inductive Chan where
  | out
  | err
deriving DecidableEq

/-- `argv[0]` stripped to everything after the last slash, as computed by
the substr/find_last_of pair at lines 25-26 of the source. -/
def basename (cmd : String) : String := (cmd.splitOn "/").getLastD ""

/-- The usage message printed to stderr when the argument count is wrong. -/
def usageLines (cmd : String) : List (Chan × String) :=
  [(Chan.err,
    "\nUsage: " ++ basename cmd ++
    " <project-id> <instance-id> <cluster-id> <zone>\n\nExample: " ++
    basename cmd ++ " my-project my-instance my-instance-c1 us-central1-f\n")]

/-- What the outer `catch` handler prints for a thrown `std::runtime_error`. -/
def catchLine (msg : String) : Chan × String :=
  (Chan.err, "Standard C++ exception raised: " ++ msg ++ "\n")

/-- The warning block printed to stderr after a `ListInstances` call whose
result reports failed locations (lines 57-64 and 114-121 of the source). -/
def failedLocWarningErr (locs : List String) : List (Chan × String) :=
  if locs.isEmpty then []
  else
    [(Chan.err,
      "The service tells us it has no information about these locations:")] ++
    locs.map (fun l => (Chan.err, " " ++ l)) ++
    [(Chan.err, ". Continuing anyway\n")]

/-- The block printed to stdout after a `ListClusters` call whose result
reports failed locations (lines 144-151 of the source). -/
def clusterFailedLocOut (locs : List String) : List (Chan × String) :=
  if locs.isEmpty then []
  else
    (Chan.out,
      "The Cloud Bigtable service reports that the following locations are " ++
      "temporarily unavailable and no information about clusters in these " ++
      "locations can be obtained:\n") ::
    locs.map (fun l => (Chan.out, l ++ "\n"))

/-- The `std::find_if` existence check of lines 65-72: some instance in the
list has name `project_name() + "/instances/" + instance_id`. -/
def instanceExists (pn iid : String) (L : InstanceList) : Bool :=
  (L.instances.find? (fun i => i.name == pn ++ "/instances/" ++ iid)).isSome

/-- The body of `main` after successful argument validation (lines 34-169),
given the four command-line arguments and the client responses.  Returns the
exit code, the trace of admin operations and the printed lines; `none` would
mean a failed result was dereferenced. -/
def runBody (project_id instance_id cluster_id zone : String) (env : Env) :
    Option (Nat × List Event × List (Chan × String)) :=
  let ev1 := [Event.connect project_id, Event.listInstances 1]
  let out0 := [(Chan.out, "\nCheck Instance exists:\n")]
  let instances := env.listInstances1
  if failed instances then
    some (1, ev1, out0 ++ [catchLine (statusMessage instances)])
  else
    (svalue instances).bind fun instancesV =>
    let out1 := out0 ++ failedLocWarningErr instancesV.failed_locations
    let instance_exists := instanceExists env.projectName instance_id instancesV
    let out2 := out1 ++
      [(Chan.out, "The instance " ++ instance_id ++
        (if instance_exists then "does" else "does not") ++ " exist already\n")]
    let afterCreate : Option (Except (Nat × List Event × List (Chan × String))
        (List Event × List (Chan × String))) :=
      if instance_exists then some (Except.ok (ev1, out2))
      else
        let out3 := out2 ++ [(Chan.out, "\nCreating a PRODUCTION Instance: ")]
        let cluster_config : ClusterConfig := ⟨zone, 3, StorageType.HDD⟩
        let config : InstanceConfig :=
          ⟨instance_id, "Sample Instance", [(cluster_id, cluster_config)],
           InstanceType.PRODUCTION⟩
        let ev2 := ev1 ++ [Event.createInstance config, Event.futureGet]
        if failed env.createRes then
          some (Except.error (1, ev2, out3 ++
            [(Chan.err, "Could not create instance " ++ instance_id ++ "\n"),
             catchLine (statusMessage env.createRes)]))
        else
          (svalue env.createRes).bind fun inst =>
          some (Except.ok (ev2, out3 ++
            [(Chan.out,
              "Successfully created instance: " ++ inst.debugString ++ "\n"),
             (Chan.out, "DONE\n")]))
    afterCreate.bind fun afterCreateR =>
    match afterCreateR with
    | Except.error r => some r
    | Except.ok (ev2, out4) =>
      let ev3 := ev2 ++ [Event.listInstances 2]
      let out5 := out4 ++ [(Chan.out, "\nListing Instances:\n")]
      let instances2 := env.listInstances2
      if failed instances2 then
        some (1, ev3, out5 ++ [catchLine (statusMessage instances2)])
      else
        (svalue instances2).bind fun instances2V =>
        let out6 := out5 ++ failedLocWarningErr instances2V.failed_locations ++
          instances2V.instances.map (fun i => (Chan.out, "  " ++ i.name ++ "\n")) ++
          [(Chan.out, "DONE\n")]
        let ev4 := ev3 ++ [Event.getInstance instance_id]
        let out7 := out6 ++ [(Chan.out, "\nGet Instance:\n")]
        if failed env.getRes then
          some (1, ev4, out7 ++ [catchLine (statusMessage env.getRes)])
        else
          (svalue env.getRes).bind fun inst =>
          let out8 := out7 ++
            [(Chan.out, "Instance details :\n" ++ inst.debugString ++ "\n")]
          let ev5 := ev4 ++ [Event.listClusters instance_id]
          let out9 := out8 ++ [(Chan.out, "\nListing Clusters:\n")]
          if failed env.clustersRes then
            some (1, ev5, out9 ++ [catchLine (statusMessage env.clustersRes)])
          else
            (svalue env.clustersRes).bind fun clusterListV =>
            let out10 := out9 ++ clusterFailedLocOut clusterListV.failed_locations ++
              [(Chan.out, "Cluster Name List:\n")] ++
              clusterListV.clusters.map
                (fun cl => (Chan.out, "Cluster Name: " ++ cl.name ++ "\n")) ++
              [(Chan.out, "DONE\n")]
            let ev6 := ev5 ++ [Event.deleteInstance instance_id]
            let out11 := out10 ++
              [(Chan.out, "Deleting instance " ++ instance_id ++ "\n")]
            if env.deleteRes.ok then
              some (0, ev6, out11 ++ [(Chan.out, "DONE\n")])
            else
              some (1, ev6, out11 ++ [catchLine env.deleteRes.message])

/-- `main` (lines 22-173): the argument-count guard of lines 23-32, then the
body; the outer catch handler is folded into the throw sites of `runBody`. -/
def run (args : List String) (env : Env) :
    Option (Nat × List Event × List (Chan × String)) :=
  match args with
  | [_, project_id, instance_id, cluster_id, zone] =>
      runBody project_id instance_id cluster_id zone env
  | _ => some (1, [], usageLines (args.headD ""))

/-- The two operations every run past argument validation performs first:
connecting the admin client and the existence-check `ListInstances`. -/
def traceStart (p : String) : List Event :=
  [Event.connect p, Event.listInstances 1]

/-- The configuration built at lines 83-86 of the source: one cluster in the
given zone with 3 nodes and HDD storage, display name "Sample Instance",
instance type PRODUCTION. -/
def createdConfig (instance_id cluster_id zone : String) : InstanceConfig :=
  ⟨instance_id, "Sample Instance", [(cluster_id, ⟨zone, 3, StorageType.HDD⟩)],
   InstanceType.PRODUCTION⟩

/-- The trace up to the end of the conditional creation step, given whether
the instance already existed. -/
def midTrace (p i c z : String) (E : Bool) : List Event :=
  traceStart p ++
    (if E then []
     else [Event.createInstance (createdConfig i c z), Event.futureGet])

/-- The operations of the second half of the program, in source order. -/
def tailTrace (i : String) : List Event :=
  [Event.listInstances 2, Event.getInstance i, Event.listClusters i,
   Event.deleteInstance i]

/-- All admin operations the run would perform succeed: the first
`ListInstances` is OK, creation is OK when it happens (the instance is
absent), and the remaining listing, get, cluster-listing and delete calls
all succeed. -/
def allOk (iid : String) (env : Env) : Bool :=
  match env.listInstances1 with
  | Except.error _ => false
  | Except.ok L =>
      (instanceExists env.projectName iid L || !(failed env.createRes)) &&
      !(failed env.listInstances2) && !(failed env.getRes) &&
      !(failed env.clustersRes) && env.deleteRes.ok

/-- Empty the failed-locations list of a `ListInstances` response. -/
def scrubIL (r : StatusOr InstanceList) : StatusOr InstanceList :=
  r.map (fun L => ⟨L.instances, []⟩)

/-- Empty the failed-locations list of a `ListClusters` response. -/
def scrubCL (r : StatusOr ClusterList) : StatusOr ClusterList :=
  r.map (fun C => ⟨C.clusters, []⟩)

/-- The same environment with every reported failed location removed. -/
def scrub (env : Env) : Env :=
  ⟨env.projectName, scrubIL env.listInstances1, env.createRes,
   scrubIL env.listInstances2, env.getRes, scrubCL env.clustersRes,
   env.deleteRes⟩

/-- A concrete instance used by the witness environments. -/
def wInst : Inst := ⟨"projects/p/instances/i", "dbg"⟩

/-- A concrete well-formed argument vector. -/
def wArgs : List String := ["hello", "p", "i", "c", "z"]

/-- A concrete run in which the instance already exists and every admin
operation succeeds. -/
def wEnvExists : Env :=
  ⟨"projects/p", Except.ok ⟨[wInst], []⟩, Except.error "unused",
   Except.ok ⟨[wInst], []⟩, Except.ok wInst, Except.ok ⟨[⟨"clu"⟩], []⟩,
   ⟨true, ""⟩⟩

/-- The trace of `run wArgs wEnvExists`. -/
def cexTrace : List Event :=
  [Event.connect "p", Event.listInstances 1, Event.listInstances 2,
   Event.getInstance "i", Event.listClusters "i", Event.deleteInstance "i"]

/-- The output of `run wArgs wEnvExists`. -/
def cexOut : List (Chan × String) :=
  [(Chan.out, "\nCheck Instance exists:\n"),
   (Chan.out, "The instance idoes exist already\n"),
   (Chan.out, "\nListing Instances:\n"),
   (Chan.out, "  projects/p/instances/i\n"),
   (Chan.out, "DONE\n"),
   (Chan.out, "\nGet Instance:\n"),
   (Chan.out, "Instance details :\ndbg\n"),
   (Chan.out, "\nListing Clusters:\n"),
   (Chan.out, "Cluster Name List:\n"),
   (Chan.out, "Cluster Name: clu\n"),
   (Chan.out, "DONE\n"),
   (Chan.out, "Deleting instance i\n"),
   (Chan.out, "DONE\n")]

/-- A concrete run in which the instance is absent and `CreateInstance`
fails. -/
def wEnvCreateFail : Env :=
  ⟨"projects/p", Except.ok ⟨[], []⟩, Except.error "boom",
   Except.ok ⟨[], []⟩, Except.ok wInst, Except.ok ⟨[], []⟩, ⟨true, ""⟩⟩

/-- The trace of `run wArgs wEnvCreateFail`. -/
def wTraceCF : List Event :=
  [Event.connect "p", Event.listInstances 1,
   Event.createInstance (createdConfig "i" "c" "z"), Event.futureGet]

/-- The output of `run wArgs wEnvCreateFail`. -/
def wOutCF : List (Chan × String) :=
  [(Chan.out, "\nCheck Instance exists:\n"),
   (Chan.out, "The instance idoes not exist already\n"),
   (Chan.out, "\nCreating a PRODUCTION Instance: "),
   (Chan.err, "Could not create instance i\n"),
   (Chan.err, "Standard C++ exception raised: boom\n")]

/-- A concrete run in which the instance is absent, the first
`ListInstances` reports a failed location, and every operation succeeds. -/
def wEnvOk : Env :=
  ⟨"projects/p", Except.ok ⟨[], ["loc1"]⟩, Except.ok wInst,
   Except.ok ⟨[wInst], []⟩, Except.ok wInst, Except.ok ⟨[⟨"clu"⟩], []⟩,
   ⟨true, ""⟩⟩

/-- The trace of `run wArgs wEnvOk`. -/
def wTraceOk : List Event :=
  [Event.connect "p", Event.listInstances 1,
   Event.createInstance (createdConfig "i" "c" "z"), Event.futureGet,
   Event.listInstances 2, Event.getInstance "i", Event.listClusters "i",
   Event.deleteInstance "i"]

/-- The output of `run wArgs wEnvOk`. -/
def wOutOk : List (Chan × String) :=
  [(Chan.out, "\nCheck Instance exists:\n"),
   (Chan.err, "The service tells us it has no information about these locations:"),
   (Chan.err, " loc1"),
   (Chan.err, ". Continuing anyway\n"),
   (Chan.out, "The instance idoes not exist already\n"),
   (Chan.out, "\nCreating a PRODUCTION Instance: "),
   (Chan.out, "Successfully created instance: dbg\n"),
   (Chan.out, "DONE\n"),
   (Chan.out, "\nListing Instances:\n"),
   (Chan.out, "  projects/p/instances/i\n"),
   (Chan.out, "DONE\n"),
   (Chan.out, "\nGet Instance:\n"),
   (Chan.out, "Instance details :\ndbg\n"),
   (Chan.out, "\nListing Clusters:\n"),
   (Chan.out, "Cluster Name List:\n"),
   (Chan.out, "Cluster Name: clu\n"),
   (Chan.out, "DONE\n"),
   (Chan.out, "Deleting instance i\n"),
   (Chan.out, "DONE\n")]

/-- Exhaustive shape analysis of a run of the body: the exit code and the
operation trace in each of the seven ways the linear sequence can end. -/
lemma runBody_shape (p i c z : String) (env : Env) (code : Nat)
    (tr : List Event) (out : List (Chan × String))
    (h : runBody p i c z env = some (code, tr, out)) :
    (failed env.listInstances1 = true ∧ code = 1 ∧ tr = traceStart p) ∨
    (∃ L, env.listInstances1 = Except.ok L ∧
      ((instanceExists env.projectName i L = false ∧ failed env.createRes = true ∧
          code = 1 ∧ tr = midTrace p i c z false) ∨
       ((instanceExists env.projectName i L = true ∨ failed env.createRes = false) ∧
        ((failed env.listInstances2 = true ∧ code = 1 ∧
            tr = midTrace p i c z (instanceExists env.projectName i L) ++
              [Event.listInstances 2]) ∨
         (failed env.listInstances2 = false ∧
          ((failed env.getRes = true ∧ code = 1 ∧
              tr = midTrace p i c z (instanceExists env.projectName i L) ++
                [Event.listInstances 2, Event.getInstance i]) ∨
           (failed env.getRes = false ∧
            ((failed env.clustersRes = true ∧ code = 1 ∧
                tr = midTrace p i c z (instanceExists env.projectName i L) ++
                  [Event.listInstances 2, Event.getInstance i,
                   Event.listClusters i]) ∨
             (failed env.clustersRes = false ∧
              ((env.deleteRes.ok = false ∧ code = 1) ∨
               (env.deleteRes.ok = true ∧ code = 0)) ∧
              tr = midTrace p i c z (instanceExists env.projectName i L) ++
                tailTrace i))))))))) := by
  obtain ⟨pn, li1, cr, li2, gr, cl, delOk, delMsg⟩ := env
  rcases li1 with m1 | L1
  · left
    simp only [runBody, failed] at h
    simp only [if_pos] at h
    simp at h
    exact ⟨rfl, h.1.symm, h.2.1.symm⟩
  · right
    refine ⟨L1, rfl, ?_⟩
    cases hE : instanceExists pn i L1 <;>
      rcases cr with m2 | v2 <;>
      rcases li2 with m3 | L3 <;>
      rcases gr with m4 | v4 <;>
      rcases cl with m5 | L5 <;>
      cases delOk <;>
      simp [runBody, failed, svalue, hE] at h <;>
      obtain ⟨hcode, htr, hout⟩ := h <;>
      subst hcode <;> subst htr <;>
      simp [midTrace, traceStart, tailTrace, createdConfig, failed, hE]

/-- Claim C4: every StatusOr-style result produced by an admin call is
checked for failure before its value is dereferenced: on no path does the
run dereference a failed result, i.e. the run never evaluates to `none`. -/
theorem statusor_checked_before_deref (args : List String) (env : Env) :
    (run args env).isSome = true := by
  obtain ⟨pn, li1, cr, li2, gr, cl, delOk, delMsg⟩ := env
  match args with
  | [] => rfl
  | [a] => rfl
  | [a, b] => rfl
  | [a, b, c] => rfl
  | [a, b, c, d] => rfl
  | a :: b :: c :: d :: e :: f :: rest => rfl
  | [a, p, i, c, z] =>
    rcases li1 with m1 | L1
    · simp [run, runBody, failed]
    · cases hE : instanceExists pn i L1 <;> rcases cr with m2 | v2 <;>
        rcases li2 with m3 | L3 <;> rcases gr with m4 | v4 <;>
        rcases cl with m5 | L5 <;> cases delOk <;>
        simp [run, runBody, failed, svalue, hE]

/-- Claim C7: whenever the argument count differs from 5, the run prints the
usage message to stderr, returns exit code 1, and performs no admin
operation at all (the trace is empty, so the client is never even
connected). -/
theorem usage_guard (args : List String) (env : Env) (h : args.length ≠ 5) :
    run args env = some (1, [], usageLines (args.headD "")) := by
  match args with
  | [] => rfl
  | [a] => rfl
  | [a, b] => rfl
  | [a, b, c] => rfl
  | [a, b, c, d] => rfl
  | a :: b :: c :: d :: e :: f :: rest => rfl
  | [a, b, c, d, e] => simp at h

/-- Witness for claim C7 at the empty argument vector. -/
theorem usage_guard_witness :
    run [] wEnvExists = some (1, [], usageLines (([] : List String).headD "")) :=
  usage_guard [] wEnvExists (by decide)

/-- Claim C1: past argument validation, `CreateInstance` is invoked if and
only if the first `ListInstances` call succeeded and none of the returned
instances is named `project_name() ++ "/instances/" ++ instance_id`. -/
theorem create_iff_absent (args : List String) (env : Env)
    (a p i c z : String) (code : Nat) (tr : List Event)
    (out : List (Chan × String)) (hargs : args = [a, p, i, c, z])
    (hrun : run args env = some (code, tr, out)) :
    (∃ cfg, Event.createInstance cfg ∈ tr) ↔
      ∃ L, env.listInstances1 = Except.ok L ∧
        instanceExists env.projectName i L = false := by
  subst hargs
  have hsh := runBody_shape p i c z env code tr out hrun
  rcases hsh with ⟨h1, -, htr⟩ | ⟨L, hL, hsub⟩
  · subst htr
    constructor
    · rintro ⟨cfg, hc⟩
      simp [traceStart] at hc
    · rintro ⟨L, hL, -⟩
      rw [hL] at h1
      simp [failed] at h1
  · rw [hL]
    cases hE : instanceExists env.projectName i L <;>
      rcases hsub with ⟨hE2, hcr, -, htr⟩ |
        ⟨hok, ⟨h2, -, htr⟩ | ⟨h2, ⟨h3, -, htr⟩ | ⟨h3, ⟨h4, -, htr⟩ |
          ⟨h4, hcode, htr⟩⟩⟩⟩ <;>
      subst htr <;>
      simp_all [midTrace, traceStart, tailTrace]

/-- Witness for claim C1 at a run in which the instance already exists. -/
theorem create_iff_absent_witness :
    ((∃ cfg, Event.createInstance cfg ∈ cexTrace) ↔
      ∃ L, wEnvExists.listInstances1 = Except.ok L ∧
        instanceExists wEnvExists.projectName "i" L = false) :=
  create_iff_absent wArgs wEnvExists "hello" "p" "i" "c" "z" 0 cexTrace
    cexOut rfl rfl

/-- Claim C2: the exit code of every run is 0 or 1, and it is 0 exactly when
the arguments validated and every admin operation the run performed
succeeded. -/
theorem exit_code_iff_all_ok (args : List String) (env : Env) (code : Nat)
    (tr : List Event) (out : List (Chan × String))
    (hrun : run args env = some (code, tr, out)) :
    (code = 0 ∨ code = 1) ∧
      (code = 0 ↔ args.length = 5 ∧ allOk (args.getD 2 "") env = true) := by
  match args with
  | [] =>
    simp [run] at hrun
    obtain ⟨h1, -, -⟩ := hrun
    subst h1
    simp
  | [a] =>
    simp [run] at hrun
    obtain ⟨h1, -, -⟩ := hrun
    subst h1
    simp
  | [a, b] =>
    simp [run] at hrun
    obtain ⟨h1, -, -⟩ := hrun
    subst h1
    simp
  | [a, b, c] =>
    simp [run] at hrun
    obtain ⟨h1, -, -⟩ := hrun
    subst h1
    simp
  | [a, b, c, d] =>
    simp [run] at hrun
    obtain ⟨h1, -, -⟩ := hrun
    subst h1
    simp
  | a :: b :: c :: d :: e :: f :: rest =>
    simp [run] at hrun
    obtain ⟨h1, -, -⟩ := hrun
    subst h1
    simp
  | [a, p, i, c, z] =>
    have hsh := runBody_shape p i c z env code tr out hrun
    rcases hsh with ⟨h1, hc, -⟩ | ⟨L, hL, hsub⟩
    · subst hc
      refine ⟨Or.inr rfl, ?_⟩
      rcases henv : env.listInstances1 with m | L
      · simp [allOk, henv]
      · rw [henv] at h1
        simp [failed] at h1
    · rcases hsub with ⟨hE, hcr, hc, -⟩ | ⟨hok, hsub2⟩
      · subst hc
        simp [allOk, hL, hE, hcr]
      · rcases hsub2 with ⟨h2, hc, -⟩ | ⟨h2, hsub3⟩
        · subst hc
          simp [allOk, hL, h2]
        · rcases hsub3 with ⟨h3, hc, -⟩ | ⟨h3, hsub4⟩
          · subst hc
            simp [allOk, hL, h2, h3]
          · rcases hsub4 with ⟨h4, hc, -⟩ | ⟨h4, hdel, -⟩
            · subst hc
              simp [allOk, hL, h2, h3, h4]
            · rcases hdel with ⟨h5, hc⟩ | ⟨h5, hc⟩
              · subst hc
                simp [allOk, hL, h2, h3, h4, h5]
              · subst hc
                rcases hok with hok | hok <;>
                  simp [allOk, hL, h2, h3, h4, h5, hok]

/-- Witness for claim C2 at a fully successful run. -/
theorem exit_code_iff_all_ok_witness :
    ((0 : Nat) = 0 ∨ (0 : Nat) = 1) ∧
      ((0 : Nat) = 0 ↔ wArgs.length = 5 ∧
        allOk (wArgs.getD 2 "") wEnvExists = true) :=
  exit_code_iff_all_ok wArgs wEnvExists 0 cexTrace cexOut rfl

/-- Counterexample to claim C3 as stated: in this fully successful concrete
run the fetch of the one instance (`GetInstance`) happens strictly before
the cluster listing (`ListClusters`), not after both listings as the
claimed order (list instances and clusters, then fetch) would require. -/
theorem op_order_counterexample :
    run wArgs wEnvExists = some (0, cexTrace, cexOut) ∧
      Event.listClusters "i" ∈ cexTrace ∧
      cexTrace.indexOf (Event.getInstance "i") <
        cexTrace.indexOf (Event.listClusters "i") :=
  ⟨rfl, by decide, by decide⟩

/-- Claim C3 amended: every successful run performs, in order, connect, the
existence-check `ListInstances`, the creation step if the instance is
absent, the second `ListInstances`, then `GetInstance`, then
`ListClusters`, and finally `DeleteInstance`; the delete is always last and
happens whether or not the instance pre-existed. -/
theorem op_order (args : List String) (env : Env) (a p i c z : String)
    (tr : List Event) (out : List (Chan × String))
    (hargs : args = [a, p, i, c, z])
    (hrun : run args env = some (0, tr, out)) :
    ∃ L, env.listInstances1 = Except.ok L ∧
      tr = [Event.connect p, Event.listInstances 1] ++
        (if instanceExists env.projectName i L then []
         else [Event.createInstance (createdConfig i c z), Event.futureGet]) ++
        [Event.listInstances 2, Event.getInstance i, Event.listClusters i,
         Event.deleteInstance i] := by
  subst hargs
  have hsh := runBody_shape p i c z env 0 tr out hrun
  rcases hsh with ⟨-, hc, -⟩ | ⟨L, hL, hsub⟩
  · exact absurd hc (by decide)
  · refine ⟨L, hL, ?_⟩
    rcases hsub with ⟨-, -, hc, -⟩ |
      ⟨-, ⟨-, hc, -⟩ | ⟨-, ⟨-, hc, -⟩ | ⟨-, ⟨-, hc, -⟩ |
        ⟨-, hdel, htr⟩⟩⟩⟩
    · exact absurd hc (by decide)
    · exact absurd hc (by decide)
    · exact absurd hc (by decide)
    · exact absurd hc (by decide)
    · subst htr
      simp [midTrace, traceStart, tailTrace]

/-- Witness for the amended claim C3 at a run that creates the instance. -/
theorem op_order_witness :
    ∃ L, wEnvOk.listInstances1 = Except.ok L ∧
      wTraceOk = [Event.connect "p", Event.listInstances 1] ++
        (if instanceExists wEnvOk.projectName "i" L then []
         else [Event.createInstance (createdConfig "i" "c" "z"),
               Event.futureGet]) ++
        [Event.listInstances 2, Event.getInstance "i",
         Event.listClusters "i", Event.deleteInstance "i"] :=
  op_order wArgs wEnvOk "hello" "p" "i" "c" "z" wTraceOk wOutOk rfl rfl

/-- Claim C5: every run blocks at most once on a future, namely the single
`creation_done.get()` wait, and that wait is reached only when the first
`ListInstances` succeeded and showed the instance to be absent. -/
theorem single_blocking_wait (args : List String) (env : Env) (code : Nat)
    (tr : List Event) (out : List (Chan × String))
    (hrun : run args env = some (code, tr, out)) :
    tr.count Event.futureGet ≤ 1 ∧
      (Event.futureGet ∈ tr →
        ∃ L, env.listInstances1 = Except.ok L ∧
          instanceExists env.projectName (args.getD 2 "") L = false) := by
  match args with
  | [] =>
    simp [run] at hrun
    obtain ⟨-, h2, -⟩ := hrun
    subst h2
    simp
  | [a] =>
    simp [run] at hrun
    obtain ⟨-, h2, -⟩ := hrun
    subst h2
    simp
  | [a, b] =>
    simp [run] at hrun
    obtain ⟨-, h2, -⟩ := hrun
    subst h2
    simp
  | [a, b, c] =>
    simp [run] at hrun
    obtain ⟨-, h2, -⟩ := hrun
    subst h2
    simp
  | [a, b, c, d] =>
    simp [run] at hrun
    obtain ⟨-, h2, -⟩ := hrun
    subst h2
    simp
  | a :: b :: c :: d :: e :: f :: rest =>
    simp [run] at hrun
    obtain ⟨-, h2, -⟩ := hrun
    subst h2
    simp
  | [a, p, i, c, z] =>
    have hsh := runBody_shape p i c z env code tr out hrun
    rcases hsh with ⟨-, -, htr⟩ | ⟨L, hL, hsub⟩
    · subst htr
      simp [traceStart]
    · cases hE : instanceExists env.projectName i L <;>
        rcases hsub with ⟨hE2, -, -, htr⟩ |
          ⟨-, ⟨-, -, htr⟩ | ⟨-, ⟨-, -, htr⟩ | ⟨-, ⟨-, -, htr⟩ |
            ⟨-, -, htr⟩⟩⟩⟩ <;>
        subst htr <;>
        simp_all [midTrace, traceStart, tailTrace]

/-- Witness for claim C5 at a run that creates the instance. -/
theorem single_blocking_wait_witness :
    wTraceOk.count Event.futureGet ≤ 1 ∧
      (Event.futureGet ∈ wTraceOk →
        ∃ L, wEnvOk.listInstances1 = Except.ok L ∧
          instanceExists wEnvOk.projectName (wArgs.getD 2 "") L = false) :=
  single_blocking_wait wArgs wEnvOk 0 wTraceOk wOutOk rfl

/-- Claim C6: the run contains no retry logic: every admin-operation call
site executes at most once, so each trace event, including the two distinct
`ListInstances` call sites, occurs at most once per run. -/
theorem no_retry (args : List String) (env : Env) (code : Nat)
    (tr : List Event) (out : List (Chan × String))
    (hrun : run args env = some (code, tr, out)) :
    tr.count (Event.listInstances 1) ≤ 1 ∧
    tr.count (Event.listInstances 2) ≤ 1 ∧
    (∀ cfg, tr.count (Event.createInstance cfg) ≤ 1) ∧
    (∀ s, tr.count (Event.getInstance s) ≤ 1) ∧
    (∀ s, tr.count (Event.listClusters s) ≤ 1) ∧
    (∀ s, tr.count (Event.deleteInstance s) ≤ 1) := by
  suffices h : tr.Nodup by
    have hc := fun e => List.nodup_iff_count_le_one.mp h e
    exact ⟨hc _, hc _, fun cfg => hc _, fun s => hc _, fun s => hc _,
      fun s => hc _⟩
  match args with
  | [] =>
    simp [run] at hrun
    obtain ⟨-, h2, -⟩ := hrun
    subst h2
    simp
  | [a] =>
    simp [run] at hrun
    obtain ⟨-, h2, -⟩ := hrun
    subst h2
    simp
  | [a, b] =>
    simp [run] at hrun
    obtain ⟨-, h2, -⟩ := hrun
    subst h2
    simp
  | [a, b, c] =>
    simp [run] at hrun
    obtain ⟨-, h2, -⟩ := hrun
    subst h2
    simp
  | [a, b, c, d] =>
    simp [run] at hrun
    obtain ⟨-, h2, -⟩ := hrun
    subst h2
    simp
  | a :: b :: c :: d :: e :: f :: rest =>
    simp [run] at hrun
    obtain ⟨-, h2, -⟩ := hrun
    subst h2
    simp
  | [a, p, i, c, z] =>
    have hsh := runBody_shape p i c z env code tr out hrun
    rcases hsh with ⟨-, -, htr⟩ | ⟨L, hL, hsub⟩
    · subst htr
      simp [traceStart]
    · cases hE : instanceExists env.projectName i L <;>
        rcases hsub with ⟨hE2, -, -, htr⟩ |
          ⟨-, ⟨-, -, htr⟩ | ⟨-, ⟨-, -, htr⟩ | ⟨-, ⟨-, -, htr⟩ |
            ⟨-, -, htr⟩⟩⟩⟩ <;>
        subst htr <;>
        simp_all [midTrace, traceStart, tailTrace]

/-- Witness for claim C6 at a run that creates the instance. -/
theorem no_retry_witness :
    wTraceOk.count (Event.listInstances 1) ≤ 1 ∧
    wTraceOk.count (Event.listInstances 2) ≤ 1 ∧
    (∀ cfg, wTraceOk.count (Event.createInstance cfg) ≤ 1) ∧
    (∀ s, wTraceOk.count (Event.getInstance s) ≤ 1) ∧
    (∀ s, wTraceOk.count (Event.listClusters s) ≤ 1) ∧
    (∀ s, wTraceOk.count (Event.deleteInstance s) ≤ 1) :=
  no_retry wArgs wEnvOk 0 wTraceOk wOutOk rfl

/-- Claim C9: whenever the run creates an instance, the configuration it
passes to `CreateInstance` is the fixed one of lines 83-86: display name
"Sample Instance", type PRODUCTION, and exactly one cluster, named by the
cluster-id argument, in the zone argument, with 3 nodes and HDD storage. -/
theorem create_config_fixed (args : List String) (env : Env)
    (a p i c z : String) (code : Nat) (tr : List Event)
    (out : List (Chan × String)) (cfg : InstanceConfig)
    (hargs : args = [a, p, i, c, z])
    (hrun : run args env = some (code, tr, out))
    (hmem : Event.createInstance cfg ∈ tr) :
    cfg = ⟨i, "Sample Instance", [(c, ⟨z, 3, StorageType.HDD⟩)],
      InstanceType.PRODUCTION⟩ := by
  subst hargs
  have hsh := runBody_shape p i c z env code tr out hrun
  rcases hsh with ⟨-, -, htr⟩ | ⟨L, hL, hsub⟩
  · subst htr
    simp [traceStart] at hmem
  · cases hE : instanceExists env.projectName i L <;>
      rcases hsub with ⟨hE2, -, -, htr⟩ |
        ⟨-, ⟨-, -, htr⟩ | ⟨-, ⟨-, -, htr⟩ | ⟨-, ⟨-, -, htr⟩ |
          ⟨-, -, htr⟩⟩⟩⟩ <;>
      subst htr <;>
      simp_all [midTrace, traceStart, tailTrace, createdConfig]

/-- Witness for claim C9 at a run whose creation step fails after being
invoked with the fixed configuration. -/
theorem create_config_fixed_witness :
    createdConfig "i" "c" "z" =
      (⟨"i", "Sample Instance", [("c", ⟨"z", 3, StorageType.HDD⟩)],
        InstanceType.PRODUCTION⟩ : InstanceConfig) :=
  create_config_fixed wArgs wEnvCreateFail "hello" "p" "i" "c" "z" 1
    wTraceCF wOutCF (createdConfig "i" "c" "z") rfl rfl (by decide)

/-- A failed location reported by a `ListInstances` response is among the
warning lines the run prints for that response. -/
lemma mem_failedLocWarningErr {l : String} {locs : List String}
    (h : l ∈ locs) : (Chan.err, " " ++ l) ∈ failedLocWarningErr locs := by
  have hne : locs.isEmpty = false := by
    cases locs
    · cases h
    · rfl
  unfold failedLocWarningErr
  rw [hne]
  simp only [Bool.false_eq_true, if_false]
  exact List.mem_append.mpr
    (Or.inl (List.mem_append.mpr (Or.inr (List.mem_map_of_mem _ h))))

/-- A failed location reported by a `ListClusters` response is among the
lines the run prints for that response. -/
lemma mem_clusterFailedLocOut {l : String} {locs : List String}
    (h : l ∈ locs) : (Chan.out, l ++ "\n") ∈ clusterFailedLocOut locs := by
  have hne : locs.isEmpty = false := by
    cases locs
    · cases h
    · rfl
  unfold clusterFailedLocOut
  rw [hne]
  simp only [Bool.false_eq_true, if_false]
  exact List.mem_cons_of_mem _ (List.mem_map_of_mem _ h)

/-- Each failed location of a successful first `ListInstances` call is
printed by the body. -/
lemma warn_first_list (p i c z : String) (env : Env) (code : Nat)
    (tr : List Event) (out : List (Chan × String)) (L : InstanceList)
    (l : String) (hrun : runBody p i c z env = some (code, tr, out))
    (hL : env.listInstances1 = Except.ok L) (hl : l ∈ L.failed_locations) :
    (Chan.err, " " ++ l) ∈ out := by
  obtain ⟨pn, li1, cr, li2, gr, cl, delOk, delMsg⟩ := env
  subst hL
  have hm := mem_failedLocWarningErr hl
  cases hE : instanceExists pn i L <;>
    rcases cr with m2 | v2 <;> rcases li2 with m3 | L3 <;>
    rcases gr with m4 | v4 <;> rcases cl with m5 | L5 <;> cases delOk <;>
    simp [runBody, failed, svalue, hE] at hrun <;>
    obtain ⟨-, -, hout⟩ := hrun <;> subst hout <;>
    simp only [List.mem_cons, List.mem_append] <;> tauto

/-- Each failed location of a successful second `ListInstances` call is
printed by the body, provided that call is reached. -/
lemma warn_second_list (p i c z : String) (env : Env) (code : Nat)
    (tr : List Event) (out : List (Chan × String)) (L : InstanceList)
    (l : String) (hrun : runBody p i c z env = some (code, tr, out))
    (hL : env.listInstances2 = Except.ok L) (hl : l ∈ L.failed_locations)
    (hre : Event.listInstances 2 ∈ tr) : (Chan.err, " " ++ l) ∈ out := by
  obtain ⟨pn, li1, cr, li2, gr, cl, delOk, delMsg⟩ := env
  subst hL
  have hm := mem_failedLocWarningErr hl
  rcases li1 with m1 | L1
  · simp [runBody, failed] at hrun
    obtain ⟨-, htr, -⟩ := hrun
    subst htr
    simp at hre
  · cases hE : instanceExists pn i L1 <;>
      rcases cr with m2 | v2 <;> rcases gr with m4 | v4 <;>
      rcases cl with m5 | L5 <;> cases delOk <;>
      simp [runBody, failed, svalue, hE] at hrun <;>
      obtain ⟨-, htr, hout⟩ := hrun <;> subst htr <;> subst hout <;>
      simp_all only [List.mem_cons, List.mem_append] <;> tauto

/-- Each failed location of a successful `ListClusters` call is printed by
the body, provided that call is reached. -/
lemma warn_clusters (p i c z : String) (env : Env) (code : Nat)
    (tr : List Event) (out : List (Chan × String)) (C : ClusterList)
    (l : String) (hrun : runBody p i c z env = some (code, tr, out))
    (hC : env.clustersRes = Except.ok C) (hl : l ∈ C.failed_locations)
    (hre : Event.listClusters i ∈ tr) : (Chan.out, l ++ "\n") ∈ out := by
  obtain ⟨pn, li1, cr, li2, gr, cl, delOk, delMsg⟩ := env
  subst hC
  have hm := mem_clusterFailedLocOut hl
  rcases li1 with m1 | L1
  · simp [runBody, failed] at hrun
    obtain ⟨-, htr, -⟩ := hrun
    subst htr
    simp at hre
  · cases hE : instanceExists pn i L1 <;>
      rcases cr with m2 | v2 <;> rcases li2 with m3 | L3 <;>
      rcases gr with m4 | v4 <;> cases delOk <;>
      simp [runBody, failed, svalue, hE] at hrun <;>
      obtain ⟨-, htr, hout⟩ := hrun <;> subst htr <;> subst hout <;>
      simp_all only [List.mem_cons, List.mem_append] <;> tauto

/-- Scrubbing a `ListInstances` response keeps its instances. -/
lemma instanceExists_scrub (pn i : String) (L : InstanceList) :
    instanceExists pn i ⟨L.instances, []⟩ = instanceExists pn i L := rfl

set_option maxHeartbeats 1000000 in
/-- Emptying every reported failed-locations list changes neither the exit
code nor the operation trace of the body. -/
lemma scrub_preserves (p i c z : String) (env : Env) :
    (runBody p i c z (scrub env)).map (fun r => (r.1, r.2.1)) =
      (runBody p i c z env).map (fun r => (r.1, r.2.1)) := by
  obtain ⟨pn, li1, cr, li2, gr, cl, delOk, delMsg⟩ := env
  rcases li1 with m1 | L1
  · simp [runBody, scrub, scrubIL, scrubCL, failed, Except.map]
  · cases hE : instanceExists pn i L1 <;>
      rcases cr with m2 | v2 <;> rcases li2 with m3 | L3 <;>
      rcases gr with m4 | v4 <;> rcases cl with m5 | L5 <;> cases delOk <;>
      simp [runBody, scrub, scrubIL, scrubCL, failed, svalue,
        Except.map, instanceExists_scrub, hE]

/-- Claim C8: failed locations reported by a successful `ListInstances` or
`ListClusters` call are non-fatal: each reported location is printed as a
warning, and removing all reported failed locations changes neither the
exit code nor the sequence of admin operations performed. -/
theorem failed_locations_nonfatal (args : List String) (env : Env)
    (a p i c z : String) (code : Nat) (tr : List Event)
    (out : List (Chan × String)) (hargs : args = [a, p, i, c, z])
    (hrun : run args env = some (code, tr, out)) :
    (∀ L l, env.listInstances1 = Except.ok L → l ∈ L.failed_locations →
        (Chan.err, " " ++ l) ∈ out) ∧
    (∀ L l, env.listInstances2 = Except.ok L → l ∈ L.failed_locations →
        Event.listInstances 2 ∈ tr → (Chan.err, " " ++ l) ∈ out) ∧
    (∀ C l, env.clustersRes = Except.ok C → l ∈ C.failed_locations →
        Event.listClusters i ∈ tr → (Chan.out, l ++ "\n") ∈ out) ∧
    (run args (scrub env)).map (fun r => (r.1, r.2.1)) =
      (run args env).map (fun r => (r.1, r.2.1)) := by
  subst hargs
  have hrb : runBody p i c z env = some (code, tr, out) := hrun
  exact ⟨fun L l hL hl =>
      warn_first_list p i c z env code tr out L l hrb hL hl,
    fun L l hL hl hre =>
      warn_second_list p i c z env code tr out L l hrb hL hl hre,
    fun C l hC hl hre =>
      warn_clusters p i c z env code tr out C l hrb hC hl hre,
    scrub_preserves p i c z env⟩

/-- Witness for claim C8 at a run whose first `ListInstances` reports a
failed location. -/
theorem failed_locations_nonfatal_witness :
    (∀ L l, wEnvOk.listInstances1 = Except.ok L → l ∈ L.failed_locations →
        (Chan.err, " " ++ l) ∈ wOutOk) ∧
    (∀ L l, wEnvOk.listInstances2 = Except.ok L → l ∈ L.failed_locations →
        Event.listInstances 2 ∈ wTraceOk → (Chan.err, " " ++ l) ∈ wOutOk) ∧
    (∀ C l, wEnvOk.clustersRes = Except.ok C → l ∈ C.failed_locations →
        Event.listClusters "i" ∈ wTraceOk →
          (Chan.out, l ++ "\n") ∈ wOutOk) ∧
    (run wArgs (scrub wEnvOk)).map (fun r => (r.1, r.2.1)) =
      (run wArgs wEnvOk).map (fun r => (r.1, r.2.1)) :=
  failed_locations_nonfatal wArgs wEnvOk "hello" "p" "i" "c" "z" 0 wTraceOk
    wOutOk rfl rfl

end HelloInstanceAdmin
